import Mathlib

/-!
Verification of the LLM client wrapper (`src/utils/llm_utils.py`) and the
indicator engine (`src/utils/visualizations.py`).

The Python code is shallowly embedded: the network is an oracle
`invoke : Nat → InvokeOutcome` giving the outcome of the attempt-indexed
call, `time.sleep` is recorded as a list of delay amounts (time units),
and the number of underlying calls made is returned alongside the result.
Machine floats are modelled as rationals (reals where a square root is
taken); the float special values that the code can produce (the NaN of a
leading `diff`, the ±inf of a division by zero) are handled explicitly at
the operations that produce or consume them, mirroring IEEE behaviour.
-/

/-- Outcome of one `llm.invoke(prompt)` call: the exception raised, or the
reply.  `connError`/`timeoutError` are `APIConnectionError`/`APITimeoutError`;
`apiError msg` is an `APIError` whose `str(e)` is `msg`. -/
inductive InvokeOutcome where
  | ok (content : String)
  | connError
  | timeoutError
  | apiError (msg : String)
deriving DecidableEq, Repr

/-- The error classes `except (APIConnectionError, APITimeoutError)` catches. -/
def InvokeOutcome.transient (o : InvokeOutcome) : Prop :=
  o = .connError ∨ o = .timeoutError

/-- Errors `get_llm_response` can raise.  `requestsConnError` is the
`requests.exceptions.ConnectionError` raised after the last retry; its message
carries the attempt count and `str(e)` of the triggering cause, which we keep
structurally.  `plainConnError` is the `ConnectionError` after the loop. -/
inductive LLMError where
  | requestsConnError (attempts : Nat) (cause : InvokeOutcome)
  | valueError (msg : String)
  | plainConnError (attempts : Nat)
deriving DecidableEq, Repr

/-- Whether `needle` is an initial segment of the second list. -/
def leadsWith : List Nat → List Nat → Bool
  | [], _ => true
  | _ :: _, [] => false
  | a :: as, b :: bs => a == b && leadsWith as bs

/-- Whether `needle` occurs as a contiguous segment of the second list. -/
def occursIn (needle : List Nat) : List Nat → Bool
  | [] => leadsWith needle []
  | c :: cs => leadsWith needle (c :: cs) || occursIn needle cs

/-- `str.lower()` on one code point, modelled on the ASCII range (the
needle `"rate_limit"` is pure ASCII). -/
def lowerCode (n : Nat) : Nat := if 65 ≤ n ∧ n ≤ 90 then n + 32 else n

/-- `"rate_limit" in str(e).lower()` (line 114 of `llm_utils.py`), as a
substring test on lowered code points. -/
def rateLimited (msg : String) : Bool :=
  occursIn ("rate_limit".toList.map Char.toNat)
    (msg.toList.map (fun c => lowerCode c.toNat))

/-- The `for attempt in range(max_retries)` loop of `get_llm_response`
(lines 98-117), by recursion on the remaining iteration count.  Returns the
result, the list of `time.sleep` amounts in order, and the number of
`llm.invoke` calls made. -/
def getLlmLoop (invoke : Nat → InvokeOutcome) (maxRetries retryDelay : Nat) :
    Nat → Nat → Except LLMError String × List Nat × Nat
  | 0, _ => (.error (.plainConnError maxRetries), [], 0)
  | remaining + 1, attempt =>
    match invoke attempt with
    | .ok content => (.ok content, [], 1)
    | .connError =>
      if attempt < maxRetries - 1 then
        let rest := getLlmLoop invoke maxRetries retryDelay remaining (attempt + 1)
        (rest.1, retryDelay * (attempt + 1) :: rest.2.1, rest.2.2 + 1)
      else
        (.error (.requestsConnError maxRetries .connError), [], 1)
    | .timeoutError =>
      if attempt < maxRetries - 1 then
        let rest := getLlmLoop invoke maxRetries retryDelay remaining (attempt + 1)
        (rest.1, retryDelay * (attempt + 1) :: rest.2.1, rest.2.2 + 1)
      else
        (.error (.requestsConnError maxRetries .timeoutError), [], 1)
    | .apiError msg =>
      if rateLimited msg = true ∧ attempt < maxRetries - 1 then
        let rest := getLlmLoop invoke maxRetries retryDelay remaining (attempt + 1)
        (rest.1, retryDelay * (attempt + 1) * 2 :: rest.2.1, rest.2.2 + 1)
      else
        (.error (.valueError msg), [], 1)

/-- `get_llm_response(llm, prompt, max_retries, retry_delay)` of
`llm_utils.py` lines 76-122, with the network abstracted by `invoke`.
The `llm` handle and `prompt` only feed `llm.invoke(prompt)` and are folded
into the oracle. -/
def get_llm_response (invoke : Nat → InvokeOutcome) (maxRetries retryDelay : Nat) :
    Except LLMError String × List Nat × Nat :=
  getLlmLoop invoke maxRetries retryDelay maxRetries 0

/-- Outcome of the `ChatOpenAI(...)` constructor call in `initialize_llm`. -/
inductive CtorOutcome where
  | ok
  | connError
  | timeoutError
  | apiError (msg : String)
deriving DecidableEq, Repr

/-- Errors `initialize_llm` can raise. -/
inductive InitError where
  | valueErrorMissingKey
  | requestsConnError (attempts : Nat) (cause : CtorOutcome)
  | valueErrorApi (msg : String)
  | plainConnError (attempts : Nat)
deriving DecidableEq, Repr

/-- The inner `try: llm.invoke("test") except Exception: pass` of
`initialize_llm` (lines 50-53): every outcome of the test invocation,
exceptions included, is discarded. -/
def swallowTestInvoke (_outcome : InvokeOutcome) : Unit := ()

/-- The `for attempt in range(max_retries)` loop of `initialize_llm`
(lines 41-67).  `construct` gives the outcome of the `ChatOpenAI(...)`
constructor at each attempt, `testInvoke` the outcome of the throwaway
`llm.invoke("test")`.  On success returns the attempt index at which the
client was returned. -/
def initLoop (construct : Nat → CtorOutcome) (testInvoke : Nat → InvokeOutcome)
    (maxRetries : Nat) : Nat → Nat → Except InitError Nat × List Nat × Nat
  | 0, _ => (.error (.plainConnError maxRetries), [], 0)
  | remaining + 1, attempt =>
    match construct attempt with
    | .ok =>
      let _ := swallowTestInvoke (testInvoke attempt)
      (.ok attempt, [], 1)
    | .connError =>
      if attempt < maxRetries - 1 then
        let rest := initLoop construct testInvoke maxRetries remaining (attempt + 1)
        (rest.1, 2 * (attempt + 1) :: rest.2.1, rest.2.2 + 1)
      else
        (.error (.requestsConnError maxRetries .connError), [], 1)
    | .timeoutError =>
      if attempt < maxRetries - 1 then
        let rest := initLoop construct testInvoke maxRetries remaining (attempt + 1)
        (rest.1, 2 * (attempt + 1) :: rest.2.1, rest.2.2 + 1)
      else
        (.error (.requestsConnError maxRetries .timeoutError), [], 1)
    | .apiError msg => (.error (.valueErrorApi msg), [], 1)

/-- `initialize_llm(api_key, max_retries)` of `llm_utils.py` lines 23-72.
Returns the result (the attempt index at which the client was returned, or
the error raised), the `time.sleep` amounts, and the number of constructor
attempts made. -/
def initialize_llm (apiKey : String) (construct : Nat → CtorOutcome)
    (testInvoke : Nat → InvokeOutcome) (maxRetries : Nat) :
    Except InitError Nat × List Nat × Nat :=
  if apiKey.isEmpty then (.error .valueErrorMissingKey, [], 0)
  else initLoop construct testInvoke maxRetries maxRetries 0

/-- The result of `initialize_llm` does not depend on the outcomes of the
throwaway test invocations: the inner `except Exception: pass` swallows
everything they raise. -/
theorem initLoop_testInvoke_irrel (construct : Nat → CtorOutcome)
    (f g : Nat → InvokeOutcome) (maxRetries : Nat) :
    ∀ remaining attempt,
      initLoop construct f maxRetries remaining attempt
        = initLoop construct g maxRetries remaining attempt := by
  intro remaining
  induction remaining with
  | zero => intro attempt; rfl
  | succ n ih =>
    intro attempt
    simp only [initLoop]
    cases construct attempt with
    | ok => rfl
    | connError => rw [ih]
    | timeoutError => rw [ih]
    | apiError msg => rfl

/-- Claim C1: when every underlying send fails with a transient
connection/timeout error, `get_llm_response` with `max_retries = 3`,
`retry_delay = 2` makes exactly 3 attempts, sleeps `retry_delay * (attempt+1)`
time units between attempts (2 then 4), and finally fails with the
`requests` connection-error carrying the attempt count and the cause raised
on the last attempt. -/
theorem getResponse_allTransient_threeAttempts (invoke : Nat → InvokeOutcome)
    (h : ∀ n, (invoke n).transient) :
    get_llm_response invoke 3 2
      = (.error (.requestsConnError 3 (invoke 2)), [2, 4], 3) := by
  obtain h0 | h0 := h 0 <;> obtain h1 | h1 := h 1 <;> obtain h2 | h2 := h 2 <;>
    simp [get_llm_response, getLlmLoop, h0, h1, h2]

/-- Witness for C1 at the oracle that always raises a connection error. -/
theorem getResponse_allTransient_threeAttempts_witness :
    get_llm_response (fun _ => InvokeOutcome.connError) 3 2
      = (.error (.requestsConnError 3 .connError), [2, 4], 3) :=
  getResponse_allTransient_threeAttempts (fun _ => InvokeOutcome.connError)
    (fun _ => Or.inl rfl)

/-- Claim C2: evaluation at the spec's failing scenario.  The constructor
succeeds on every attempt while the throwaway test invocation raises
`APIConnectionError` on every attempt; `initialize_llm` nevertheless returns
the client successfully on the first attempt, with no sleep and a single
attempt made, because the inner `except Exception: pass` (line 52-53)
swallows the connection error before the retry handler can see it.
Moreover the whole result is independent of the test invocation's outcomes. -/
theorem initialize_testInvokeConnError_succeeds :
    initialize_llm "k" (fun _ => CtorOutcome.ok) (fun _ => InvokeOutcome.connError) 3
        = (.ok 0, [], 1)
      ∧ ∀ (apiKey : String) (construct : Nat → CtorOutcome) (maxRetries : Nat)
          (f g : Nat → InvokeOutcome),
          initialize_llm apiKey construct f maxRetries
            = initialize_llm apiKey construct g maxRetries := by
  constructor
  · rfl
  · intro apiKey construct maxRetries f g
    unfold initialize_llm
    split
    · rfl
    · exact initLoop_testInvoke_irrel construct f g maxRetries maxRetries 0

/-- Claim C6: whenever the underlying send fails with a non-transient
`APIError` — at any attempt of the retry loop (and `get_llm_response`
starts the loop at `getLlmLoop invoke maxRetries retryDelay maxRetries 0`) —
then: if the message indicates rate-limiting and attempts remain
(`attempt < maxRetries - 1`), the call sleeps
`retryDelay * (attempt + 1) * 2` time units and retries, the rest of the
run being the loop continued at the next attempt with one more send
counted; otherwise — a non-rate-limit message at any attempt, or a
rate-limited one with no attempts remaining (including `maxRetries = 1`) —
it fails immediately with the value-error kind, after that single send and
with no sleep. -/
theorem getResponse_apiError_cases (invoke : Nat → InvokeOutcome)
    (maxRetries retryDelay remaining attempt : Nat) (msg : String)
    (h : invoke attempt = .apiError msg) :
    (rateLimited msg = true ∧ attempt < maxRetries - 1 →
        getLlmLoop invoke maxRetries retryDelay (remaining + 1) attempt
          = ((getLlmLoop invoke maxRetries retryDelay remaining (attempt + 1)).1,
             retryDelay * (attempt + 1) * 2
               :: (getLlmLoop invoke maxRetries retryDelay remaining (attempt + 1)).2.1,
             (getLlmLoop invoke maxRetries retryDelay remaining (attempt + 1)).2.2 + 1))
    ∧ (rateLimited msg = false ∨ ¬ attempt < maxRetries - 1 →
        getLlmLoop invoke maxRetries retryDelay (remaining + 1) attempt
          = (.error (.valueError msg), [], 1)) := by
  constructor
  · rintro ⟨hrl, hlt⟩
    simp only [getLlmLoop, h]
    rw [if_pos ⟨hrl, hlt⟩]
  · intro hcase
    have hneg : ¬ (rateLimited msg = true ∧ attempt < maxRetries - 1) := by
      rcases hcase with hf | hnl
      · rintro ⟨hrl, -⟩
        rw [hf] at hrl
        exact Bool.false_ne_true hrl
      · rintro ⟨-, hlt⟩
        exact hnl hlt
    simp only [getLlmLoop, h]
    rw [if_neg hneg]

/-- Witness for C6: a non-rate-limit `APIError` at the first of three
attempts fails immediately with the value-error kind; so does a rate-limited
one when no attempts remain (`maxRetries = 1`). -/
theorem getResponse_apiError_cases_witness :
    getLlmLoop (fun _ => InvokeOutcome.apiError "invalid request") 3 2 3 0
        = (.error (.valueError "invalid request"), [], 1)
      ∧ getLlmLoop (fun _ => InvokeOutcome.apiError "Rate_Limit exceeded") 1 2 1 0
        = (.error (.valueError "Rate_Limit exceeded"), [], 1) :=
  ⟨(getResponse_apiError_cases (fun _ => InvokeOutcome.apiError "invalid request")
      3 2 2 0 "invalid request" rfl).2 (Or.inl (by decide)),
    (getResponse_apiError_cases (fun _ => InvokeOutcome.apiError "Rate_Limit exceeded")
      1 2 0 0 "Rate_Limit exceeded" rfl).2 (Or.inr (by decide))⟩

/-- A cache entry: prompt, cached response, and the time it was stored. -/
abbrev CacheEntry := String × String × Nat

/-- Modelled from the spec: the body of `st.cache_data` is the streamlit
library, not part of this repository; the cache is modelled from the
contract stated at the call site of `llm_utils.py` line 75 (`ttl=86400`,
a 24-hour time-to-live) and the docstring of `get_llm_response` line 79
(the `llm` object is not used in the cache key, leaving the prompt text as
the key).  An entry answers a lookup while less than 86400 time units old. -/
def cacheLookup (cache : List CacheEntry) (prompt : String) (now : Nat) :
    Option String :=
  (cache.find? (fun e => e.1 == prompt && decide (now < e.2.2 + 86400))).map
    (fun e => e.2.1)

/-- Modelled from the spec: `get_llm_response` as seen through the
`st.cache_data(ttl=86400)` decorator.  `now` is the call time and `llm` the
client handle, which the key ignores.  Returns the result, the cache after
the call (successful results are stored), and the number of underlying
network calls issued. -/
def cached_get_llm_response (cache : List CacheEntry) (now : Nat) (_llm : Nat)
    (prompt : String) (invoke : Nat → InvokeOutcome) (maxRetries retryDelay : Nat) :
    Except LLMError String × List CacheEntry × Nat :=
  match cacheLookup cache prompt now with
  | some resp => (.ok resp, cache, 0)
  | none =>
    let run := get_llm_response invoke maxRetries retryDelay
    match run.1 with
    | .ok s => (.ok s, (prompt, s, now) :: cache, run.2.2)
    | .error e => (.error e, cache, run.2.2)

/-- Claim C3: starting from an empty cache, a `get_llm_response` call whose
send succeeds at once issues exactly one network call and stores the
response under the prompt text; a second call with the identical prompt
within the 24-hour horizon — through any client handle, and whatever its
own network oracle and retry parameters would be — issues zero network
calls and returns the cached response, so the two invocations together
issue at most one underlying network call. -/
theorem cached_response_shared (prompt s : String)
    (invoke invoke2 : Nat → InvokeOutcome)
    (llm1 llm2 t1 t2 maxRetries retryDelay maxRetries2 retryDelay2 : Nat)
    (h : invoke 0 = .ok s) (hm : 1 ≤ maxRetries) (ht : t2 < t1 + 86400) :
    cached_get_llm_response [] t1 llm1 prompt invoke maxRetries retryDelay
        = (.ok s, [(prompt, s, t1)], 1)
      ∧ cached_get_llm_response [(prompt, s, t1)] t2 llm2 prompt invoke2
          maxRetries2 retryDelay2
        = (.ok s, [(prompt, s, t1)], 0) := by
  obtain ⟨k, rfl⟩ : ∃ k, maxRetries = k + 1 := ⟨maxRetries - 1, by omega⟩
  constructor
  · simp [cached_get_llm_response, cacheLookup, get_llm_response, getLlmLoop, h]
  · simp [cached_get_llm_response, cacheLookup, List.find?, ht]

/-- Witness for C3 at a concrete prompt, two distinct client handles, and
two call times 100 time units apart. -/
theorem cached_response_shared_witness :
    cached_get_llm_response [] 0 1 "p" (fun _ => InvokeOutcome.ok "hi") 3 2
        = (.ok "hi", [("p", "hi", 0)], 1)
      ∧ cached_get_llm_response [("p", "hi", 0)] 100 2 "p"
          (fun _ => InvokeOutcome.connError) 3 2
        = (.ok "hi", [("p", "hi", 0)], 0) :=
  cached_response_shared "p" "hi" (fun _ => InvokeOutcome.ok "hi")
    (fun _ => InvokeOutcome.connError) 1 2 0 100 3 2 3 2 rfl (by omega) (by omega)

/-- A price-history table as the indicator functions see it: the list of
column names (`data.columns`) and the values of the `Close` column, whose
length is the row count `len(data)`. -/
structure DataFrame where
  colNames : List String
  close : List ℚ
deriving DecidableEq, Repr

/-- `"Close" in data.columns`. -/
abbrev DataFrame.hasClose (df : DataFrame) : Prop := "Close" ∈ df.colNames

/-- Errors the plotting functions of `visualizations.py` raise (all are
Python `ValueError`s, except `keyError` for an unchecked column access). -/
inductive VizError where
  | missingClose
  | notEnoughRows (need got : Nat)
  | noValidPoints
  | keyError (col : String)
deriving DecidableEq, Repr

/-- `data['Close'].diff()` at row `i`; meaningful for `1 ≤ i < len` (the
row-0 value is NaN, which the `where` masks below turn into 0). -/
def deltaAt (cs : List ℚ) (i : Nat) : ℚ := cs.getD i 0 - cs.getD (i - 1) 0

/-- `delta.where(delta > 0, 0)` at row `i` (line 32): the positive part of
the daily delta.  At row 0 the delta is NaN and `NaN > 0` is false, so the
mask replaces it by 0. -/
def gainAt (cs : List ℚ) (i : Nat) : ℚ :=
  if i = 0 then 0 else max (deltaAt cs i) 0

/-- `(-delta.where(delta < 0, 0))` at row `i` (line 33): the magnitude of
the negative part of the daily delta, with the row-0 NaN masked to 0. -/
def lossAt (cs : List ℚ) (i : Nat) : ℚ :=
  if i = 0 then 0 else max (-deltaAt cs i) 0

/-- `series.rolling(window=w).mean()` at row `i` of an `n`-row series whose
values are `f`: defined (non-NaN) exactly when the window is full, i.e.
`w ≤ i + 1` and `i < n`. -/
def rollingMeanAt (w : Nat) (f : Nat → ℚ) (n i : Nat) : Option ℚ :=
  if w ≤ i + 1 ∧ i < n then
    some ((∑ j in Finset.range w, f (i + 1 - w + j)) / (w : ℚ))
  else none

/-- `rsi = 100 - (100 / (1 + gain/loss))` at row `i` (lines 34-35), with
the float special cases made explicit: a NaN rolling mean yields NaN
(`none`); `gain/loss` with `loss = 0` yields `+inf` when `gain > 0`
(so `rsi = 100`) and NaN when `gain = 0` (so the point is dropped). -/
def rsiAt (cs : List ℚ) (i : Nat) : Option ℚ :=
  match rollingMeanAt 14 (gainAt cs) cs.length i,
        rollingMeanAt 14 (lossAt cs) cs.length i with
  | some g, some l =>
    if l = 0 then (if g = 0 then none else some 100)
    else some (100 - 100 / (1 + g / l))
  | _, _ => none

/-- `rsi.dropna()` (line 38): the defined RSI values in row order. -/
def rsiRetained (cs : List ℚ) : List ℚ :=
  (List.range cs.length).filterMap (rsiAt cs)

/-- `plot_rsi(data, ticker)` of `visualizations.py` lines 10-53.  The
figure is the list of plotted RSI values; the second component is the
caller's `data` after the call (the body never assigns into it). -/
def plot_rsi (df : DataFrame) : Except VizError (List ℚ) × DataFrame :=
  if "Close" ∈ df.colNames then
    if df.close.length < 14 then (.error (.notEnoughRows 14 df.close.length), df)
    else
      let rsi := rsiRetained df.close
      if rsi.length = 0 then (.error .noValidPoints, df)
      else (.ok rsi, df)
  else (.error .missingClose, df)

/-- `series.rolling(window=w).mean()` over the reals, as the value taken on
a full window ending at row `i` (rows outside `i < n` and `w ≤ i + 1` are
dropped by `dropna`, see `bbRetainedIdx`). -/
noncomputable def rmean (w : Nat) (xs : List ℝ) (i : Nat) : ℝ :=
  (∑ j in Finset.range w, xs.getD (i + 1 - w + j) 0) / (w : ℝ)

/-- `series.rolling(window=w).std()` squared: the pandas sample variance
(`ddof=1`, denominator `w - 1`) of the full window ending at row `i`. -/
noncomputable def rvar (w : Nat) (xs : List ℝ) (i : Nat) : ℝ :=
  (∑ j in Finset.range w, (xs.getD (i + 1 - w + j) 0 - rmean w xs i) ^ 2)
    / ((w : ℝ) - 1)

/-- `series.rolling(window=w).std()` on a full window. -/
noncomputable def rstd (w : Nat) (xs : List ℝ) (i : Nat) : ℝ :=
  Real.sqrt (rvar w xs i)

/-- The rows `plot_data.dropna()` keeps (line 84): those where the three
rolling-window columns are defined, i.e. the window of `w` rows ending at
the row is full.  (The original columns hold no NaN in this model.) -/
def bbRetainedIdx (w n : Nat) : List Nat :=
  (List.range n).filter (fun i => decide (w ≤ i + 1))

/-- One retained row of the Bollinger figure: closing price, middle band,
upper band, lower band. -/
structure BBRow where
  close : ℝ
  middle : ℝ
  upper : ℝ
  lower : ℝ

/-- The row `i` of `plot_data` after lines 79-81: middle = 20-row rolling
mean of close, upper/lower = middle plus/minus 2 times the rolling standard
deviation. -/
noncomputable def bbRowAt (cs : List ℝ) (i : Nat) : BBRow :=
  { close := cs.getD i 0
    middle := rmean 20 cs i
    upper := rmean 20 cs i + 2 * rstd 20 cs i
    lower := rmean 20 cs i - 2 * rstd 20 cs i }

/-- `plot_bollinger_bands(data, ticker)` of `visualizations.py` lines
56-101.  The body works on `plot_data = data.copy()` (line 78) and adds the
three band columns to that copy only; the figure is the list of retained
rows of the copy, and the second component is the caller's `data` after the
call. -/
noncomputable def plot_bollinger_bands (df : DataFrame) :
    Except VizError (List BBRow) × DataFrame :=
  if "Close" ∈ df.colNames then
    if df.close.length < 20 then (.error (.notEnoughRows 20 df.close.length), df)
    else
      let plotData : List ℝ := df.close.map (fun q => (q : ℝ))
      let retained := bbRetainedIdx 20 df.close.length
      if retained.length = 0 then (.error .noValidPoints, df)
      else (.ok (retained.map (bbRowAt plotData)), df)
  else (.error .missingClose, df)

/-- `plot_pe_ratios(data, ticker, eps)` of `visualizations.py` lines
104-137.  `eps = none` is Python `None`; the `eps is None or eps == 0`
guard (line 124) returns `None` — no figure, no error — before any column
access.  Otherwise `data['Close']` is read (an unchecked access, a
`KeyError` if absent) and the figure is the per-date series `close / eps`. -/
def plot_pe_ratios (df : DataFrame) (eps : Option ℚ) :
    Except VizError (Option (List ℚ)) × DataFrame :=
  match eps with
  | none => (.ok none, df)
  | some e =>
    if e = 0 then (.ok none, df)
    else
      if "Close" ∈ df.colNames then
        (.ok (some (df.close.map (fun c => c / e))), df)
      else (.error (.keyError "Close"), df)

/-- `plot_beta_comparison(betas)` of `visualizations.py` lines 140-163:
returns `None` for an empty map, otherwise the bar data; the second
component is the caller's map after the call. -/
def plot_beta_comparison (betas : List (String × ℚ)) :
    Option (List (String × ℚ)) × List (String × ℚ) :=
  if betas.isEmpty then (none, betas) else (some betas, betas)

/-- The recursive smoothing `ewm(span=s, adjust=False).mean()` after the
first point: each value is `α x + (1 - α) prev` with `α = 2 / (span + 1)`. -/
def emaFrom (α prev : ℚ) : List ℚ → List ℚ
  | [] => []
  | x :: xs =>
    let e := α * x + (1 - α) * prev
    e :: emaFrom α e xs

/-- `series.ewm(span=s, adjust=False).mean()`: the first value is the first
data point, the rest follow the recursive smoothing form. -/
def ewmMean (span : Nat) : List ℚ → List ℚ
  | [] => []
  | x :: xs => x :: emaFrom (2 / ((span : ℚ) + 1)) x xs

/-- `plot_macd(data, ticker)` of `visualizations.py` lines 166-207.  The
figure is the triple of plotted series (MACD line, signal line, histogram);
no point is NaN in this model, so `valid_idx` keeps every row and its sum
is zero only for an empty series. -/
def plot_macd (df : DataFrame) :
    Except VizError (List ℚ × List ℚ × List ℚ) × DataFrame :=
  if "Close" ∈ df.colNames then
    if df.close.length < 26 then (.error (.notEnoughRows 26 df.close.length), df)
    else
      let ema12 := ewmMean 12 df.close
      let ema26 := ewmMean 26 df.close
      let macd := List.zipWith (fun a b => a - b) ema12 ema26
      let signal := ewmMean 9 macd
      let histogram := List.zipWith (fun a b => a - b) macd signal
      if macd.length = 0 then (.error .noValidPoints, df)
      else (.ok (macd, signal, histogram), df)
  else (.error .missingClose, df)

/-- Claim C5: on a series with a closing-price column but fewer rows than
the indicator's minimum window — 14 for RSI, 20 for Bollinger Bands, 26 for
MACD — the function fails with the data-sufficiency error carrying the
required and supplied row counts, before any derived series or figure is
built. -/
theorem indicator_short_series_fails (df : DataFrame) (hc : df.hasClose) :
    (df.close.length < 14 →
        (plot_rsi df).1 = .error (.notEnoughRows 14 df.close.length))
    ∧ (df.close.length < 20 →
        (plot_bollinger_bands df).1 = .error (.notEnoughRows 20 df.close.length))
    ∧ (df.close.length < 26 →
        (plot_macd df).1 = .error (.notEnoughRows 26 df.close.length)) := by
  refine ⟨fun h => ?_, fun h => ?_, fun h => ?_⟩
  · simp [plot_rsi, hc, h]
  · simp [plot_bollinger_bands, hc, h]
  · simp [plot_macd, hc, h]

/-- Witness for C5 on a five-row series. -/
theorem indicator_short_series_fails_witness :
    (plot_rsi ⟨["Close"], [1, 2, 3, 4, 5]⟩).1 = .error (.notEnoughRows 14 5)
    ∧ (plot_bollinger_bands ⟨["Close"], [1, 2, 3, 4, 5]⟩).1
        = .error (.notEnoughRows 20 5)
    ∧ (plot_macd ⟨["Close"], [1, 2, 3, 4, 5]⟩).1 = .error (.notEnoughRows 26 5) := by
  have h := indicator_short_series_fails ⟨["Close"], [1, 2, 3, 4, 5]⟩ (by decide)
  exact ⟨h.1 (by decide), h.2.1 (by decide), h.2.2 (by decide)⟩

/-- Claim C7: on a series with a closing-price column, `plot_pe_ratios`
returns no result — an absent figure, not an error — exactly when `eps` is
absent or zero; for every other `eps` it returns a figure whose plotted
series is the per-date ratio `close / eps`. -/
theorem pe_ratio_none_iff (df : DataFrame) (eps : Option ℚ) (hc : df.hasClose) :
    ((plot_pe_ratios df eps).1 = .ok none ↔ eps = none ∨ eps = some 0)
    ∧ (∀ e : ℚ, eps = some e → e ≠ 0 →
        (plot_pe_ratios df eps).1
          = .ok (some (df.close.map (fun c => c / e)))) := by
  constructor
  · cases eps with
    | none => simp [plot_pe_ratios]
    | some e =>
      by_cases he : e = 0
      · simp [plot_pe_ratios, he]
      · simp [plot_pe_ratios, he, hc]
  · intro e he hne
    subst he
    simp [plot_pe_ratios, hne, hc]

/-- Witness for C7: close = 150, eps = 3 gives the single ratio 50. -/
theorem pe_ratio_none_iff_witness :
    (plot_pe_ratios ⟨["Close"], [150]⟩ (some 3)).1
        = .ok (some ([(150 : ℚ)].map (fun c => c / 3)))
    ∧ [(150 : ℚ)].map (fun c => c / 3) = [50] :=
  ⟨(pe_ratio_none_iff ⟨["Close"], [150]⟩ (some 3) (by decide)).2 3 rfl
      (by norm_num),
    by norm_num⟩

/-- Claim C9: none of the indicator functions mutates the caller-supplied
data: the returned caller-side table (second component, the value of the
Python `data` reference after the call) equals the input for RSI, Bollinger
Bands, P/E, and MACD, and likewise for the beta map of the bar chart;
`plot_bollinger_bands` adds its derived columns only to the defensive copy
`plot_data = data.copy()`. -/
theorem indicators_preserve_input (df : DataFrame) (eps : Option ℚ)
    (betas : List (String × ℚ)) :
    (plot_rsi df).2 = df
    ∧ (plot_bollinger_bands df).2 = df
    ∧ (plot_pe_ratios df eps).2 = df
    ∧ (plot_macd df).2 = df
    ∧ (plot_beta_comparison betas).2 = betas := by
  refine ⟨?_, ?_, ?_, ?_, ?_⟩
  · unfold plot_rsi; dsimp only; split_ifs <;> rfl
  · unfold plot_bollinger_bands; dsimp only; split_ifs <;> rfl
  · cases eps with
    | none => rfl
    | some e => unfold plot_pe_ratios; dsimp only; split_ifs <;> rfl
  · unfold plot_macd; dsimp only; split_ifs <;> rfl
  · unfold plot_beta_comparison; split_ifs <;> rfl

theorem gainAt_nonneg (cs : List ℚ) (i : Nat) : 0 ≤ gainAt cs i := by
  unfold gainAt; split
  · exact le_refl 0
  · exact le_max_right _ _

theorem lossAt_nonneg (cs : List ℚ) (i : Nat) : 0 ≤ lossAt cs i := by
  unfold lossAt; split
  · exact le_refl 0
  · exact le_max_right _ _

/-- On a (weakly) increasing close series every masked daily loss is 0. -/
theorem lossAt_eq_zero_of_chain_le {cs : List ℚ}
    (h : List.Chain' (· ≤ ·) cs) {k : Nat} (hk : k < cs.length) :
    lossAt cs k = 0 := by
  unfold lossAt
  cases k with
  | zero => rfl
  | succ m =>
    have hm : m < cs.length := Nat.lt_of_succ_lt hk
    have hle : cs.get ⟨m, hm⟩ ≤ cs.get ⟨m + 1, hk⟩ := by
      have := List.chain'_iff_get.mp h m (by omega)
      exact this
    have hdelta : 0 ≤ deltaAt cs (m + 1) := by
      unfold deltaAt
      rw [List.getD_eq_getElem _ _ hk]
      have : m + 1 - 1 = m := by omega
      rw [this, List.getD_eq_getElem _ _ hm]
      simp only [List.get_eq_getElem] at hle
      linarith
    simp only [Nat.succ_ne_zero, if_false]
    have : -deltaAt cs (m + 1) ≤ 0 := by linarith
    exact max_eq_right this

/-- On a (weakly) decreasing close series every masked daily gain is 0. -/
theorem gainAt_eq_zero_of_chain_ge {cs : List ℚ}
    (h : List.Chain' (· ≥ ·) cs) {k : Nat} (hk : k < cs.length) :
    gainAt cs k = 0 := by
  unfold gainAt
  cases k with
  | zero => rfl
  | succ m =>
    have hm : m < cs.length := Nat.lt_of_succ_lt hk
    have hge : cs.get ⟨m, hm⟩ ≥ cs.get ⟨m + 1, hk⟩ := by
      have := List.chain'_iff_get.mp h m (by omega)
      exact this
    have hdelta : deltaAt cs (m + 1) ≤ 0 := by
      unfold deltaAt
      rw [List.getD_eq_getElem _ _ hk]
      have : m + 1 - 1 = m := by omega
      rw [this, List.getD_eq_getElem _ _ hm]
      simp only [List.get_eq_getElem] at hge
      linarith
    simp only [Nat.succ_ne_zero, if_false]
    exact max_eq_right hdelta

/-- A rolling mean of values that vanish on the rows of the series is 0
wherever it is defined. -/
theorem rollingMeanAt_eq_zero {w n : Nat} {f : Nat → ℚ}
    (h : ∀ k, k < n → f k = 0) {i : Nat} (hcond : w ≤ i + 1 ∧ i < n) :
    rollingMeanAt w f n i = some 0 := by
  unfold rollingMeanAt
  rw [if_pos hcond]
  have hsum : (∑ j in Finset.range w, f (i + 1 - w + j)) = 0 := by
    apply Finset.sum_eq_zero
    intro j hj
    have hj' : j < w := Finset.mem_range.mp hj
    exact h _ (by omega)
  rw [hsum]
  simp

/-- When the window is full both rolling means are defined. -/
theorem rollingMeanAt_isSome {w n : Nat} (f : Nat → ℚ) {i : Nat}
    (hcond : w ≤ i + 1 ∧ i < n) :
    rollingMeanAt w f n i
      = some ((∑ j in Finset.range w, f (i + 1 - w + j)) / (w : ℚ)) := by
  unfold rollingMeanAt
  rw [if_pos hcond]

/-- The RSI branch for a zero rolling loss: the point is 100 when the
rolling gain is nonzero (via `+inf`), and dropped otherwise (`0/0` NaN). -/
theorem rsiBranch_zeroLoss (G v : ℚ)
    (hv : (if (0 : ℚ) = 0 then (if G = 0 then none else some (100 : ℚ))
           else some (100 - 100 / (1 + G / 0))) = some v) : v = 100 := by
  rw [if_pos rfl] at hv
  by_cases h : G = 0
  · rw [if_pos h] at hv; exact absurd hv (by simp)
  · rw [if_neg h] at hv; exact (Option.some.inj hv).symm

/-- The RSI branch for a zero rolling gain: the point is 0 when the rolling
loss is nonzero (`RS = 0`), and dropped otherwise. -/
theorem rsiBranch_zeroGain (L v : ℚ)
    (hv : (if L = 0 then (if (0 : ℚ) = 0 then none else some (100 : ℚ))
           else some (100 - 100 / (1 + 0 / L))) = some v) : v = 0 := by
  by_cases h : L = 0
  · rw [if_pos h, if_pos rfl] at hv; exact absurd hv (by simp)
  · rw [if_neg h] at hv
    have h0 : (100 : ℚ) - 100 / (1 + 0 / L) = 0 := by
      rw [zero_div, add_zero, div_one]; ring
    rw [h0] at hv
    exact (Option.some.inj hv).symm

/-- On a weakly increasing close series every defined RSI point equals 100:
the rolling loss mean vanishes, so `gain/loss` is `+inf` (value 100) or
`0/0` (NaN, dropped). -/
theorem rsiAt_of_chain_le {cs : List ℚ} (h : List.Chain' (· ≤ ·) cs)
    {i : Nat} {v : ℚ} (hv : rsiAt cs i = some v) : v = 100 := by
  unfold rsiAt at hv
  by_cases hcond : 14 ≤ i + 1 ∧ i < cs.length
  · have hl : rollingMeanAt 14 (lossAt cs) cs.length i = some 0 :=
      rollingMeanAt_eq_zero (fun k hk => lossAt_eq_zero_of_chain_le h hk) hcond
    rw [rollingMeanAt_isSome (gainAt cs) hcond, hl] at hv
    exact rsiBranch_zeroLoss _ v hv
  · have hg : rollingMeanAt 14 (gainAt cs) cs.length i = none := by
      unfold rollingMeanAt; rw [if_neg hcond]
    rw [hg] at hv
    exact absurd hv (by simp)

/-- On a weakly decreasing close series every defined RSI point equals 0:
the rolling gain mean vanishes, so `RS = 0` and `RSI = 100 - 100/1`. -/
theorem rsiAt_of_chain_ge {cs : List ℚ} (h : List.Chain' (· ≥ ·) cs)
    {i : Nat} {v : ℚ} (hv : rsiAt cs i = some v) : v = 0 := by
  unfold rsiAt at hv
  by_cases hcond : 14 ≤ i + 1 ∧ i < cs.length
  · have hg : rollingMeanAt 14 (gainAt cs) cs.length i = some 0 :=
      rollingMeanAt_eq_zero (fun k hk => gainAt_eq_zero_of_chain_ge h hk) hcond
    rw [hg, rollingMeanAt_isSome (lossAt cs) hcond] at hv
    exact rsiBranch_zeroGain _ v hv
  · have hg : rollingMeanAt 14 (gainAt cs) cs.length i = none := by
      unfold rollingMeanAt; rw [if_neg hcond]
    rw [hg] at hv
    exact absurd hv (by simp)

/-- When `plot_rsi` returns a figure, the plotted values are the retained
RSI points. -/
theorem plot_rsi_ok {df : DataFrame} {r : List ℚ}
    (hok : (plot_rsi df).1 = .ok r) : r = rsiRetained df.close := by
  unfold plot_rsi at hok
  split at hok
  · split at hok
    · exact absurd hok (by simp)
    · dsimp only at hok
      split at hok
      · exact absurd hok (by simp)
      · simpa using hok.symm
  · exact absurd hok (by simp)

/-- Claim C4: whenever the closing prices are monotonic (weakly increasing
or weakly decreasing) and `plot_rsi` returns a figure, every retained RSI
value lies in `[0, 100]`; for strictly increasing closes every retained
value equals 100. -/
theorem rsi_monotone_bounded (df : DataFrame) (r : List ℚ)
    (hmono : List.Chain' (· ≤ ·) df.close ∨ List.Chain' (· ≥ ·) df.close)
    (hok : (plot_rsi df).1 = .ok r) :
    (∀ v ∈ r, 0 ≤ v ∧ v ≤ 100)
    ∧ (List.Chain' (· < ·) df.close → ∀ v ∈ r, v = 100) := by
  have hr : r = rsiRetained df.close := plot_rsi_ok hok
  subst hr
  constructor
  · intro v hv
    obtain ⟨i, -, hi⟩ := List.mem_filterMap.mp hv
    rcases hmono with hle | hge
    · rw [rsiAt_of_chain_le hle hi]; norm_num
    · rw [rsiAt_of_chain_ge hge hi]; norm_num
  · intro hstrict v hv
    obtain ⟨i, -, hi⟩ := List.mem_filterMap.mp hv
    exact rsiAt_of_chain_le (hstrict.imp fun a b hab => le_of_lt hab) hi

/-- On a 14-row series the rolling mean at the last row averages rows
0 through 13. -/
theorem rollingMean_13 (f : Nat → ℚ) {n : Nat} (hn : n = 14) :
    rollingMeanAt 14 f n 13 = some ((∑ j in Finset.range 14, f j) / (14 : ℚ)) := by
  subst hn
  unfold rollingMeanAt
  rw [if_pos ⟨by omega, by omega⟩]
  have harg : ∀ j : Nat, 13 + 1 - 14 + j = j := fun j => by omega
  simp only [harg]
  norm_num

/-- The RSI branch is `none` exactly when both rolling means vanish
(the `0/0` NaN). -/
theorem rsiBranch_none_iff (G L : ℚ) :
    ((if L = 0 then (if G = 0 then none else some (100 : ℚ))
      else some (100 - 100 / (1 + G / L))) = none) ↔ L = 0 ∧ G = 0 := by
  constructor
  · intro h
    by_cases hl : L = 0
    · rw [if_pos hl] at h
      by_cases hg : G = 0
      · exact ⟨hl, hg⟩
      · rw [if_neg hg] at h; exact absurd h (by simp)
    · rw [if_neg hl] at h; exact absurd h (by simp)
  · rintro ⟨hl, hg⟩
    rw [if_pos hl, if_pos hg]

/-- On a 14-row series the RSI at the last row is dropped (NaN) exactly when
the masked gains and losses over the window all cancel. -/
theorem rsiAt_13_none_iff {cs : List ℚ} (hlen : cs.length = 14) :
    rsiAt cs 13 = none
      ↔ (∑ j in Finset.range 14, gainAt cs j) = 0
        ∧ (∑ j in Finset.range 14, lossAt cs j) = 0 := by
  have h1 : rsiAt cs 13
      = (if (∑ j in Finset.range 14, lossAt cs j) / (14 : ℚ) = 0 then
          (if (∑ j in Finset.range 14, gainAt cs j) / (14 : ℚ) = 0 then none
           else some 100)
         else some (100 - 100 /
          (1 + ((∑ j in Finset.range 14, gainAt cs j) / (14 : ℚ))
            / ((∑ j in Finset.range 14, lossAt cs j) / (14 : ℚ))))) := by
    unfold rsiAt
    rw [rollingMean_13 (gainAt cs) hlen, rollingMean_13 (lossAt cs) hlen]
  rw [h1, rsiBranch_none_iff, div_eq_zero_iff, div_eq_zero_iff]
  norm_num
  tauto

/-- A daily delta whose masked gain and loss both vanish is zero. -/
theorem sums_zero_iff_chain_eq {cs : List ℚ} (hlen : cs.length = 14) :
    ((∑ j in Finset.range 14, gainAt cs j) = 0
      ∧ (∑ j in Finset.range 14, lossAt cs j) = 0)
      ↔ List.Chain' (· = ·) cs := by
  rw [Finset.sum_eq_zero_iff_of_nonneg (fun j _ => gainAt_nonneg cs j),
    Finset.sum_eq_zero_iff_of_nonneg (fun j _ => lossAt_nonneg cs j),
    List.chain'_iff_get]
  constructor
  · rintro ⟨hg, hl⟩ k hk
    have hk13 : k < 13 := by omega
    have hg1 := hg (k + 1) (Finset.mem_range.mpr (by omega))
    have hl1 := hl (k + 1) (Finset.mem_range.mpr (by omega))
    unfold gainAt at hg1
    unfold lossAt at hl1
    rw [if_neg (Nat.succ_ne_zero k)] at hg1 hl1
    have hd1 : deltaAt cs (k + 1) ≤ 0 := by
      have := le_max_left (deltaAt cs (k + 1)) 0
      rw [hg1] at this; exact this
    have hd2 : 0 ≤ deltaAt cs (k + 1) := by
      have := le_max_left (-deltaAt cs (k + 1)) 0
      rw [hl1] at this; linarith
    have hd : deltaAt cs (k + 1) = 0 := le_antisymm hd1 hd2
    unfold deltaAt at hd
    rw [List.getD_eq_getElem _ _ (by omega), Nat.add_sub_cancel,
      List.getD_eq_getElem _ _ (by omega)] at hd
    simp only [List.get_eq_getElem]
    linarith
  · intro hchain
    constructor
    · intro j hj
      unfold gainAt
      cases j with
      | zero => rfl
      | succ m =>
        rw [if_neg (Nat.succ_ne_zero m)]
        have hm : m < cs.length - 1 := by
          have := Finset.mem_range.mp hj; omega
        have heq := hchain m hm
        have hd : deltaAt cs (m + 1) = 0 := by
          unfold deltaAt
          rw [List.getD_eq_getElem _ _ (by omega), Nat.add_sub_cancel,
            List.getD_eq_getElem _ _ (by omega)]
          simp only [List.get_eq_getElem] at heq
          linarith
        rw [hd]; exact max_self 0
    · intro j hj
      unfold lossAt
      cases j with
      | zero => rfl
      | succ m =>
        rw [if_neg (Nat.succ_ne_zero m)]
        have hm : m < cs.length - 1 := by
          have := Finset.mem_range.mp hj; omega
        have heq := hchain m hm
        have hd : deltaAt cs (m + 1) = 0 := by
          unfold deltaAt
          rw [List.getD_eq_getElem _ _ (by omega), Nat.add_sub_cancel,
            List.getD_eq_getElem _ _ (by omega)]
          simp only [List.get_eq_getElem] at heq
          linarith
        rw [hd, neg_zero]; exact max_self 0

/-- On a 14-row series only the last row can carry a defined RSI value. -/
theorem rsiRetained_of_len14 {cs : List ℚ} (hlen : cs.length = 14) :
    rsiRetained cs = (rsiAt cs 13).toList := by
  unfold rsiRetained
  rw [hlen, show (14 : Nat) = 13 + 1 from rfl, List.range_succ,
    List.filterMap_append]
  have h1 : (List.range 13).filterMap (rsiAt cs) = [] := by
    rw [List.filterMap_eq_nil_iff]
    intro a ha
    have halt : a < 13 := List.mem_range.mp ha
    unfold rsiAt
    have hnone : rollingMeanAt 14 (gainAt cs) cs.length a = none := by
      unfold rollingMeanAt
      rw [if_neg]
      rintro ⟨hx, -⟩
      omega
    rw [hnone]
  rw [h1, List.nil_append]
  cases h13 : rsiAt cs 13 <;> simp [h13]

/-- On a 14-row series with a closing-price column, `plot_rsi` passes the
minimum-row check and its result is decided by the retained-points guard. -/
theorem plot_rsi_len14_eq {df : DataFrame} (hc : df.hasClose)
    (hlen : df.close.length = 14) :
    (plot_rsi df).1
      = if (rsiRetained df.close).length = 0 then .error .noValidPoints
        else .ok (rsiRetained df.close) := by
  unfold plot_rsi
  rw [if_pos hc, if_neg (by omega)]
  exact apply_ite Prod.fst _ _ _

/-- The RSI branch for a zero rolling loss and nonzero rolling gain is 100. -/
theorem rsiBranch_pos (G : ℚ) (hG : G ≠ 0) :
    (if (0 : ℚ) = 0 then (if G = 0 then none else some (100 : ℚ))
     else some (100 - 100 / (1 + G / 0))) = some 100 := by
  rw [if_pos rfl, if_neg hG]

/-- On a strictly increasing 14-row close series `plot_rsi` succeeds with
the single retained value 100: the leading NaN delta is masked to 0, so the
only full window is defined, its loss mean is 0 and its gain mean positive. -/
theorem plot_rsi_strict14 {df : DataFrame} (hc : df.hasClose)
    (hlen : df.close.length = 14) (hstrict : List.Chain' (· < ·) df.close) :
    (plot_rsi df).1 = .ok [100] := by
  have hle : List.Chain' (· ≤ ·) df.close :=
    hstrict.imp fun a b hab => le_of_lt hab
  have hlsum : (∑ j in Finset.range 14, lossAt df.close j) = 0 :=
    Finset.sum_eq_zero fun j hj =>
      lossAt_eq_zero_of_chain_le hle (by have := Finset.mem_range.mp hj; omega)
  have hgpos : 0 < ∑ j in Finset.range 14, gainAt df.close j := by
    apply Finset.sum_pos' (fun j _ => gainAt_nonneg df.close j)
    refine ⟨13, Finset.mem_range.mpr (by omega), ?_⟩
    unfold gainAt
    rw [if_neg (by omega)]
    have h12 : df.close.get ⟨12, by omega⟩ < df.close.get ⟨13, by omega⟩ :=
      List.chain'_iff_get.mp hstrict 12 (by omega)
    have hd : 0 < deltaAt df.close 13 := by
      unfold deltaAt
      rw [List.getD_eq_getElem _ _ (by omega : (13 : Nat) < df.close.length),
        show (13 : Nat) - 1 = 12 from rfl,
        List.getD_eq_getElem _ _ (by omega : (12 : Nat) < df.close.length)]
      simp only [List.get_eq_getElem] at h12
      linarith
    exact lt_max_of_lt_left hd
  have h13 : rsiAt df.close 13 = some 100 := by
    unfold rsiAt
    rw [rollingMean_13 (gainAt df.close) hlen,
      rollingMean_13 (lossAt df.close) hlen, hlsum, zero_div]
    exact rsiBranch_pos _ (by positivity)
  have hret := rsiRetained_of_len14 hlen
  rw [plot_rsi_len14_eq hc hlen, hret, h13]
  norm_num

/-- The strictly increasing 14-row price series used as concrete input. -/
def df14inc : DataFrame :=
  ⟨["Close"], [1, 2, 3, 4, 5, 6, 7, 8, 9, 10, 11, 12, 13, 14]⟩

/-- Witness for C4 on the strictly increasing 14-row series, whose figure
is the single retained value 100. -/
theorem rsi_monotone_bounded_witness :
    (∀ v ∈ [(100 : ℚ)], 0 ≤ v ∧ v ≤ 100) ∧ (∀ v ∈ [(100 : ℚ)], v = 100) := by
  have hstrict : List.Chain' (· < ·) df14inc.close := by
    norm_num [df14inc, List.chain'_cons]
  have hok : (plot_rsi df14inc).1 = .ok [100] :=
    plot_rsi_strict14 (by decide) (by decide) hstrict
  have h := rsi_monotone_bounded df14inc [100]
    (Or.inl (hstrict.imp fun a b hab => le_of_lt hab)) hok
  exact ⟨h.1, h.2 hstrict⟩

/-- Claim C10, counterexample: a 14-row series with a closing-price column
on which `plot_rsi` does not fail but returns the figure `[100]` — exactly
14 rows suffice, and the no-valid-data-points error does not occur. -/
theorem rsi_exactly14_counterexample :
    df14inc.close.length = 14 ∧ (plot_rsi df14inc).1 = .ok [100] :=
  ⟨rfl, plot_rsi_strict14 (by decide) (by decide)
    (by norm_num [df14inc, List.chain'_cons])⟩

/-- Claim C10 as amended: on a series with a closing-price column and
exactly 14 rows, `plot_rsi` passes the minimum-row check, and — because the
`where` masks coerce the undefined leading first-difference to 0, leaving
the single 14-wide window fully defined — it fails with the
no-valid-data-points error exactly when all closes are equal (the `0/0`
NaN window); otherwise it returns a figure, so 14 rows suffice. -/
theorem rsi_exactly14_noValid_iff (df : DataFrame) (hc : df.hasClose)
    (hlen : df.close.length = 14) :
    ((plot_rsi df).1 = .error VizError.noValidPoints
      ↔ List.Chain' (· = ·) df.close)
    ∧ (¬ List.Chain' (· = ·) df.close →
        (plot_rsi df).1 = .ok (rsiRetained df.close)
          ∧ rsiRetained df.close ≠ []) := by
  have hplot := plot_rsi_len14_eq hc hlen
  have hiff : rsiRetained df.close = [] ↔ List.Chain' (· = ·) df.close := by
    rw [rsiRetained_of_len14 hlen]
    have htl : (rsiAt df.close 13).toList = [] ↔ rsiAt df.close 13 = none := by
      cases rsiAt df.close 13 <;> simp
    rw [htl, rsiAt_13_none_iff hlen, sums_zero_iff_chain_eq hlen]
  constructor
  · rw [hplot]
    constructor
    · intro h
      by_cases hz : (rsiRetained df.close).length = 0
      · exact hiff.mp (List.length_eq_zero.mp hz)
      · rw [if_neg hz] at h
        exact absurd h (by simp)
    · intro hchain
      have hz : (rsiRetained df.close).length = 0 :=
        List.length_eq_zero.mpr (hiff.mpr hchain)
      rw [if_pos hz]
  · intro hn
    have hne : rsiRetained df.close ≠ [] := fun h => hn (hiff.mp h)
    have hz : ¬ (rsiRetained df.close).length = 0 :=
      fun h => hne (List.length_eq_zero.mp h)
    rw [hplot, if_neg hz]
    exact ⟨rfl, hne⟩

/-- Witness for the amended C10 on the all-equal 14-row series, which does
fail with the no-valid-data-points error. -/
theorem rsi_exactly14_noValid_iff_witness :
    (plot_rsi ⟨["Close"], [5, 5, 5, 5, 5, 5, 5, 5, 5, 5, 5, 5, 5, 5]⟩).1
      = .error VizError.noValidPoints :=
  ((rsi_exactly14_noValid_iff
      ⟨["Close"], [5, 5, 5, 5, 5, 5, 5, 5, 5, 5, 5, 5, 5, 5]⟩
      (by decide) (by decide)).1).mpr (by norm_num [List.chain'_cons])

/-- Claim C8: whenever `plot_bollinger_bands` returns a figure, every
retained row satisfies lower band ≤ middle band ≤ upper band, since
upper/lower are the middle (the 20-row rolling mean of close) plus/minus
twice the nonnegative rolling standard deviation. -/
theorem bollinger_band_order (df : DataFrame) (rows : List BBRow)
    (hok : (plot_bollinger_bands df).1 = .ok rows) :
    ∀ b ∈ rows, b.lower ≤ b.middle ∧ b.middle ≤ b.upper := by
  unfold plot_bollinger_bands at hok
  split at hok
  · split at hok
    · exact absurd hok (by simp)
    · dsimp only at hok
      split at hok
      · exact absurd hok (by simp)
      · have hrows : rows
            = (bbRetainedIdx 20 df.close.length).map
                (bbRowAt (df.close.map (fun q => (q : ℝ)))) := by
          simpa using hok.symm
        rw [hrows]
        intro b hb
        obtain ⟨i, -, rfl⟩ := List.mem_map.mp hb
        have hs : 0 ≤ rstd 20 (df.close.map (fun q => (q : ℝ))) i :=
          Real.sqrt_nonneg _
        unfold bbRowAt
        constructor
        · dsimp only; linarith
        · dsimp only; linarith
  · exact absurd hok (by simp)

/-- The 20-row price series used as concrete Bollinger input. -/
def df20 : DataFrame :=
  ⟨["Close"], [1, 2, 3, 4, 5, 6, 7, 8, 9, 10,
    11, 12, 13, 14, 15, 16, 17, 18, 19, 20]⟩

/-- Witness for C8 at the single retained row of the 20-row series. -/
theorem bollinger_band_order_witness :
    (bbRowAt (df20.close.map (fun q => (q : ℝ))) 19).lower
        ≤ (bbRowAt (df20.close.map (fun q => (q : ℝ))) 19).middle
      ∧ (bbRowAt (df20.close.map (fun q => (q : ℝ))) 19).middle
        ≤ (bbRowAt (df20.close.map (fun q => (q : ℝ))) 19).upper := by
  have hok : (plot_bollinger_bands df20).1
      = .ok ((bbRetainedIdx 20 df20.close.length).map
          (bbRowAt (df20.close.map (fun q => (q : ℝ))))) := rfl
  have hmem : bbRowAt (df20.close.map (fun q => (q : ℝ))) 19
      ∈ (bbRetainedIdx 20 df20.close.length).map
          (bbRowAt (df20.close.map (fun q => (q : ℝ)))) := by
    rw [show bbRetainedIdx 20 df20.close.length = [19] from rfl]
    exact List.mem_singleton.mpr rfl
  exact bollinger_band_order df20 _ hok _ hmem
